import Mathlib

/-!
Shallow embedding of `src/data_structures/bank_account.py`.

The Python class `BankAccount` holds a private account number (an `int`)
and a `balance` (a `float`).  We model the balance with `ℚ`: the source
performs only additions, subtractions and comparisons on it, and the spec
treats the arithmetic as exact.  The printed status lines are modelled by
the structured `Message` type carrying exactly the values the source
interpolates into its f-strings; construction failure (`raise ValueError`)
is modelled by `Except InitError`.
-/

/-- The state of one account: `self.__account_number` and `self.balance`. -/
structure BankAccount where
  account_number : Int
  balance : ℚ
deriving DecidableEq

/-- The two `ValueError` messages `__init__` can raise. -/
inductive InitError where
  | accountNumberMustBePositive
  | initialBalanceCannotBeNegative
deriving DecidableEq

/-- The status lines printed by `deposit`, `withdraw` and `check_balance`,
each constructor carrying the values interpolated into the f-string. -/
inductive Message where
  | depositMustBePositive
  | depositSuccess (amount : ℚ)
  | withdrawMustBePositive
  | insufficientFunds (available : ℚ)
  | withdrawSuccess (amount : ℚ)
  | accountNumberIs (n : Int)
  | availableBalanceIs (b : ℚ)
deriving DecidableEq

/-- `BankAccount.__init__`: validates the account number, then the balance,
and only then produces the object.  The `isinstance(account_number, int)`
check is subsumed by the `Int` type of the argument. -/
def BankAccount.init (account_number : Int) (balance : ℚ) :
    Except InitError BankAccount :=
  if account_number ≤ 0 then
    Except.error InitError.accountNumberMustBePositive
  else if balance < 0 then
    Except.error InitError.initialBalanceCannotBeNegative
  else
    Except.ok ⟨account_number, balance⟩

/-- `BankAccount.deposit`: returns the boolean result, the printed message
and the post-state. -/
def BankAccount.deposit (a : BankAccount) (amount : ℚ) :
    Bool × Message × BankAccount :=
  if amount ≤ 0 then
    (false, Message.depositMustBePositive, a)
  else
    (true, Message.depositSuccess amount,
      ⟨a.account_number, a.balance + amount⟩)

/-- `BankAccount.withdraw`: returns the boolean result, the printed message
and the post-state. -/
def BankAccount.withdraw (a : BankAccount) (amount : ℚ) :
    Bool × Message × BankAccount :=
  if amount ≤ 0 then
    (false, Message.withdrawMustBePositive, a)
  else if amount > a.balance then
    (false, Message.insufficientFunds a.balance, a)
  else
    (true, Message.withdrawSuccess amount,
      ⟨a.account_number, a.balance - amount⟩)

/-- `BankAccount.check_balance`: prints two lines and leaves the state
unchanged. -/
def BankAccount.check_balance (a : BankAccount) : List Message × BankAccount :=
  ([Message.accountNumberIs a.account_number,
    Message.availableBalanceIs a.balance], a)

/-- `BankAccount.get_account_number`: pure accessor, state unchanged. -/
def BankAccount.get_account_number (a : BankAccount) : Int × BankAccount :=
  (a.account_number, a)

/-- `BankAccount.__repr__`: the values interpolated into the returned
string, with the state unchanged. -/
def BankAccount.reprInfo (a : BankAccount) : (Int × ℚ) × BankAccount :=
  ((a.account_number, a.balance), a)

/-- An account is valid when it could have come from a successful
construction: positive account number and non-negative balance. -/
def BankAccount.valid (a : BankAccount) : Prop :=
  0 < a.account_number ∧ 0 ≤ a.balance

instance (a : BankAccount) : Decidable a.valid :=
  inferInstanceAs (Decidable (0 < a.account_number ∧ 0 ≤ a.balance))

/-- The five operations callable on an account after construction. -/
inductive Op where
  | deposit (amount : ℚ)
  | withdraw (amount : ℚ)
  | check_balance
  | get_account_number
  | reprOp
deriving DecidableEq

/-- Whether an operation is one of the three inquiry operations. -/
def Op.isInquiry : Op → Bool
  | Op.deposit _ => false
  | Op.withdraw _ => false
  | Op.check_balance => true
  | Op.get_account_number => true
  | Op.reprOp => true

/-- The state after running one operation. -/
def applyOp (a : BankAccount) : Op → BankAccount
  | Op.deposit amount => (a.deposit amount).2.2
  | Op.withdraw amount => (a.withdraw amount).2.2
  | Op.check_balance => a.check_balance.2
  | Op.get_account_number => a.get_account_number.2
  | Op.reprOp => a.reprInfo.2

/-- The state after running a sequence of operations. -/
def run (a : BankAccount) (ops : List Op) : BankAccount :=
  ops.foldl applyOp a

/-! ### Helper lemmas -/

/-- Inversion of a successful construction: the stored fields are exactly
the arguments, and the arguments satisfied the validation. -/
theorem init_ok_inv (n : Int) (b : ℚ) (a : BankAccount)
    (h : BankAccount.init n b = Except.ok a) :
    a = ⟨n, b⟩ ∧ 0 < n ∧ 0 ≤ b := by
  unfold BankAccount.init at h
  split_ifs at h with h1 h2
  simp only [Except.ok.injEq] at h
  exact ⟨h.symm, lt_of_not_le h1, le_of_not_lt h2⟩

/-- One step of any operation preserves non-negativity of the balance. -/
theorem applyOp_balance_nonneg (a : BankAccount) (op : Op)
    (h : 0 ≤ a.balance) : 0 ≤ (applyOp a op).balance := by
  cases op with
  | deposit amount =>
      simp only [applyOp, BankAccount.deposit]
      split_ifs with h1
      · exact h
      · have : 0 < amount := lt_of_not_le h1
        simpa using by linarith
  | withdraw amount =>
      simp only [applyOp, BankAccount.withdraw]
      split_ifs with h1 h2
      · exact h
      · exact h
      · have : amount ≤ a.balance := le_of_not_lt h2
        simpa using by linarith
  | check_balance => exact h
  | get_account_number => exact h
  | reprOp => exact h

/-- No operation ever changes the account number. -/
theorem applyOp_account_number (a : BankAccount) (op : Op) :
    (applyOp a op).account_number = a.account_number := by
  cases op with
  | deposit amount =>
      simp only [applyOp, BankAccount.deposit]
      split_ifs <;> rfl
  | withdraw amount =>
      simp only [applyOp, BankAccount.withdraw]
      split_ifs <;> rfl
  | check_balance => rfl
  | get_account_number => rfl
  | reprOp => rfl

/-- An inquiry operation is the identity on the state. -/
theorem applyOp_inquiry (a : BankAccount) (op : Op)
    (h : op.isInquiry = true) : applyOp a op = a := by
  cases op with
  | deposit amount => simp [Op.isInquiry] at h
  | withdraw amount => simp [Op.isInquiry] at h
  | check_balance => rfl
  | get_account_number => rfl
  | reprOp => rfl

/-- Any run from a state with non-negative balance keeps it non-negative. -/
theorem run_balance_nonneg (a : BankAccount) (h : 0 ≤ a.balance)
    (ops : List Op) : 0 ≤ (run a ops).balance := by
  unfold run
  induction ops generalizing a with
  | nil => exact h
  | cons op ops ih =>
      rw [List.foldl_cons]
      exact ih _ (applyOp_balance_nonneg a op h)

/-! ### Claims -/

/-- C1: for every valid account and every amount with `0 < amount` and
`amount ≤ balance`, `withdraw amount` reports success and the new balance
is exactly the old balance minus the amount. -/
theorem withdraw_success_spec (a : BankAccount) (amount : ℚ)
    (hv : a.valid) (h0 : 0 < amount) (hle : amount ≤ a.balance) :
    (a.withdraw amount).1 = true ∧
    (a.withdraw amount).2.2.balance = a.balance - amount := by
  unfold BankAccount.withdraw
  rw [if_neg (not_le.mpr h0), if_neg (not_lt.mpr hle)]
  exact ⟨rfl, rfl⟩

/-- Witness for C1: withdrawing 3 from balance 10 succeeds leaving 7. -/
theorem withdraw_success_spec_witness :
    ((⟨1, 10⟩ : BankAccount).withdraw 3).1 = true ∧
    ((⟨1, 10⟩ : BankAccount).withdraw 3).2.2.balance = (10 : ℚ) - 3 :=
  withdraw_success_spec ⟨1, 10⟩ 3 ⟨by norm_num, by norm_num⟩
    (by norm_num) (by norm_num)

/-- C2: for every valid account and every amount `> 0`, `deposit amount`
reports success and the new balance is exactly the old balance plus the
amount. -/
theorem deposit_success_spec (a : BankAccount) (amount : ℚ)
    (hv : a.valid) (h0 : 0 < amount) :
    (a.deposit amount).1 = true ∧
    (a.deposit amount).2.2.balance = a.balance + amount := by
  unfold BankAccount.deposit
  rw [if_neg (not_le.mpr h0)]
  exact ⟨rfl, rfl⟩

/-- Witness for C2: depositing 3 onto balance 10 succeeds leaving 13. -/
theorem deposit_success_spec_witness :
    ((⟨1, 10⟩ : BankAccount).deposit 3).1 = true ∧
    ((⟨1, 10⟩ : BankAccount).deposit 3).2.2.balance = (10 : ℚ) + 3 :=
  deposit_success_spec ⟨1, 10⟩ 3 ⟨by norm_num, by norm_num⟩ (by norm_num)

/-- C3: construction succeeds iff the identifier is positive and the
initial balance is non-negative; on success the stored fields equal the
arguments exactly, and on failure a `ValueError`-style error is produced
and no account object is. -/
theorem init_spec (n : Int) (b : ℚ) :
    ((∃ a, BankAccount.init n b = Except.ok a) ↔ 0 < n ∧ 0 ≤ b) ∧
    (0 < n ∧ 0 ≤ b → BankAccount.init n b = Except.ok ⟨n, b⟩) ∧
    (¬ (0 < n ∧ 0 ≤ b) → ∃ e, BankAccount.init n b = Except.error e) := by
  unfold BankAccount.init
  split_ifs with h1 h2
  · refine ⟨⟨fun ⟨a, ha⟩ => absurd ha (by simp), fun h => absurd h1 (not_le.mpr h.1)⟩,
      fun h => absurd h1 (not_le.mpr h.1), fun _ => ⟨_, rfl⟩⟩
  · refine ⟨⟨fun ⟨a, ha⟩ => absurd ha (by simp), fun h => absurd h2 (not_lt.mpr h.2)⟩,
      fun h => absurd h2 (not_lt.mpr h.2), fun _ => ⟨_, rfl⟩⟩
  · exact ⟨⟨fun _ => ⟨lt_of_not_le h1, le_of_not_lt h2⟩, fun _ => ⟨_, rfl⟩⟩,
      fun _ => rfl, fun h => absurd ⟨lt_of_not_le h1, le_of_not_lt h2⟩ h⟩

/-- Witness for C3: valid arguments construct, each invalid kind fails. -/
theorem init_spec_witness :
    BankAccount.init 5 2 = Except.ok ⟨5, 2⟩ ∧
    (∃ e, BankAccount.init (-1) 0 = Except.error e) ∧
    (∃ e, BankAccount.init 5 (-10) = Except.error e) :=
  ⟨(init_spec 5 2).2.1 ⟨by norm_num, by norm_num⟩,
   (init_spec (-1) 0).2.2 (by norm_num),
   (init_spec 5 (-10)).2.2 (by norm_num)⟩

/-- C4: every account reachable from a successful construction by any
sequence of the defined operations has a non-negative balance. -/
theorem balance_invariant (n : Int) (b : ℚ) (a : BankAccount)
    (h : BankAccount.init n b = Except.ok a) (ops : List Op) :
    0 ≤ (run a ops).balance := by
  obtain ⟨rfl, -, hb⟩ := init_ok_inv n b a h
  exact run_balance_nonneg _ hb ops

/-- Witness for C4: the invariant holds after a concrete run. -/
theorem balance_invariant_witness :
    0 ≤ (run ⟨1, 10⟩ [Op.deposit 5, Op.withdraw 20, Op.withdraw 3]).balance :=
  balance_invariant 1 10 ⟨1, 10⟩ (by rfl) _

/-- C5: for every amount `≤ 0`, both `deposit` and `withdraw` report
failure, leave the state unchanged, and signal the failure only through
the boolean result and a message (no exception is modelled: both
functions are total). -/
theorem nonpositive_amount_spec (a : BankAccount) (amount : ℚ)
    (hv : a.valid) (h : amount ≤ 0) :
    (a.deposit amount).1 = false ∧ (a.deposit amount).2.2 = a ∧
    (a.deposit amount).2.1 = Message.depositMustBePositive ∧
    (a.withdraw amount).1 = false ∧ (a.withdraw amount).2.2 = a ∧
    (a.withdraw amount).2.1 = Message.withdrawMustBePositive := by
  unfold BankAccount.deposit BankAccount.withdraw
  rw [if_pos h, if_pos h]
  exact ⟨rfl, rfl, rfl, rfl, rfl, rfl⟩

/-- Witness for C5: amount `-4` fails both operations on balance 10. -/
theorem nonpositive_amount_spec_witness :
    ((⟨1, 10⟩ : BankAccount).deposit (-4)).1 = false ∧
    ((⟨1, 10⟩ : BankAccount).deposit (-4)).2.2 = (⟨1, 10⟩ : BankAccount) ∧
    ((⟨1, 10⟩ : BankAccount).deposit (-4)).2.1 = Message.depositMustBePositive ∧
    ((⟨1, 10⟩ : BankAccount).withdraw (-4)).1 = false ∧
    ((⟨1, 10⟩ : BankAccount).withdraw (-4)).2.2 = (⟨1, 10⟩ : BankAccount) ∧
    ((⟨1, 10⟩ : BankAccount).withdraw (-4)).2.1 = Message.withdrawMustBePositive :=
  nonpositive_amount_spec ⟨1, 10⟩ (-4) ⟨by norm_num, by norm_num⟩ (by norm_num)

/-- C6: for every valid account and every amount greater than the balance,
`withdraw` reports failure, leaves the state unchanged, and its message
carries the current balance. -/
theorem withdraw_insufficient_spec (a : BankAccount) (amount : ℚ)
    (hv : a.valid) (h : a.balance < amount) :
    (a.withdraw amount).1 = false ∧
    (a.withdraw amount).2.2 = a ∧
    (a.withdraw amount).2.1 = Message.insufficientFunds a.balance := by
  have h0 : ¬ amount ≤ 0 := not_le.mpr (lt_of_le_of_lt hv.2 h)
  unfold BankAccount.withdraw
  rw [if_neg h0, if_pos h]
  exact ⟨rfl, rfl, rfl⟩

/-- Witness for C6: withdrawing 25 from balance 10 fails and reports the
balance 10. -/
theorem withdraw_insufficient_spec_witness :
    ((⟨1, 10⟩ : BankAccount).withdraw 25).1 = false ∧
    ((⟨1, 10⟩ : BankAccount).withdraw 25).2.2 = (⟨1, 10⟩ : BankAccount) ∧
    ((⟨1, 10⟩ : BankAccount).withdraw 25).2.1 = Message.insufficientFunds 10 :=
  withdraw_insufficient_spec ⟨1, 10⟩ 25 ⟨by norm_num, by norm_num⟩ (by norm_num)

/-- C7: each inquiry operation returns the state unchanged, any sequence
of inquiry operations is the identity on the state, and no operation at
all changes the account number. -/
theorem inquiry_frame_spec (a : BankAccount) (ops : List Op)
    (h : ∀ op ∈ ops, op.isInquiry = true) :
    run a ops = a ∧
    a.check_balance.2 = a ∧
    a.get_account_number.2 = a ∧
    a.reprInfo.2 = a ∧
    ∀ op : Op, (applyOp a op).account_number = a.account_number := by
  refine ⟨?_, rfl, rfl, rfl, fun op => applyOp_account_number a op⟩
  unfold run
  induction ops with
  | nil => rfl
  | cons op ops ih =>
      rw [List.foldl_cons, applyOp_inquiry a op (h op (List.mem_cons_self op ops))]
      exact ih fun o ho => h o (List.mem_cons_of_mem op ho)

/-- Witness for C7: a concrete inquiry-only sequence leaves the state
unchanged. -/
theorem inquiry_frame_spec_witness :
    run ⟨1, 10⟩ [Op.check_balance, Op.get_account_number, Op.reprOp]
      = (⟨1, 10⟩ : BankAccount) ∧
    (⟨1, 10⟩ : BankAccount).check_balance.2 = (⟨1, 10⟩ : BankAccount) ∧
    (⟨1, 10⟩ : BankAccount).get_account_number.2 = (⟨1, 10⟩ : BankAccount) ∧
    (⟨1, 10⟩ : BankAccount).reprInfo.2 = (⟨1, 10⟩ : BankAccount) ∧
    ∀ op : Op, (applyOp ⟨1, 10⟩ op).account_number
      = (⟨1, 10⟩ : BankAccount).account_number :=
  inquiry_frame_spec ⟨1, 10⟩ [Op.check_balance, Op.get_account_number, Op.reprOp]
    (by intro op hop; fin_cases hop <;> rfl)

/-- C8: the concrete scenario — constructing account 281207 with balance
27000, depositing 5000 succeeds leaving 32000, withdrawing 2000 succeeds
leaving 30000, withdrawing 1000000 fails leaving 30000, and the account
number is 281207 throughout. -/
theorem scenario_spec :
    BankAccount.init 281207 27000 = Except.ok ⟨281207, 27000⟩ ∧
    ((⟨281207, 27000⟩ : BankAccount).deposit 5000).1 = true ∧
    ((⟨281207, 27000⟩ : BankAccount).deposit 5000).2.2 = ⟨281207, 32000⟩ ∧
    ((⟨281207, 32000⟩ : BankAccount).withdraw 2000).1 = true ∧
    ((⟨281207, 32000⟩ : BankAccount).withdraw 2000).2.2 = ⟨281207, 30000⟩ ∧
    ((⟨281207, 30000⟩ : BankAccount).withdraw 1000000).1 = false ∧
    ((⟨281207, 30000⟩ : BankAccount).withdraw 1000000).2.2 = ⟨281207, 30000⟩ ∧
    ((⟨281207, 30000⟩ : BankAccount).get_account_number).1 = 281207 := by
  refine ⟨by rfl, ?_, ?_, ?_, ?_, ?_, ?_, rfl⟩ <;>
    norm_num [BankAccount.deposit, BankAccount.withdraw,
      BankAccount.mk.injEq]

/-- C9: for every valid account with positive balance, withdrawing the
entire balance succeeds and leaves the balance exactly 0, because the
insufficient-funds comparison is strict. -/
theorem withdraw_full_balance_spec (a : BankAccount)
    (hv : a.valid) (hb : 0 < a.balance) :
    (a.withdraw a.balance).1 = true ∧
    (a.withdraw a.balance).2.2.balance = 0 := by
  unfold BankAccount.withdraw
  rw [if_neg (not_le.mpr hb), if_neg (lt_irrefl a.balance)]
  exact ⟨rfl, by simp⟩

/-- Witness for C9: withdrawing the full balance 10 succeeds leaving 0. -/
theorem withdraw_full_balance_spec_witness :
    ((⟨1, 10⟩ : BankAccount).withdraw (⟨1, 10⟩ : BankAccount).balance).1 = true ∧
    ((⟨1, 10⟩ : BankAccount).withdraw (⟨1, 10⟩ : BankAccount).balance).2.2.balance = 0 :=
  withdraw_full_balance_spec ⟨1, 10⟩ ⟨by norm_num, by norm_num⟩ (by norm_num)

/-- C10: when both the identifier and the initial balance are invalid,
construction reports the identifier error, because the identifier check
comes first. -/
theorem init_identifier_error_first (n : Int) (b : ℚ)
    (hn : n ≤ 0) (hb : b < 0) :
    BankAccount.init n b = Except.error InitError.accountNumberMustBePositive := by
  unfold BankAccount.init
  rw [if_pos hn]

/-- Witness for C10: identifier `-1` with balance `-10` reports the
identifier error. -/
theorem init_identifier_error_first_witness :
    BankAccount.init (-1) (-10)
      = Except.error InitError.accountNumberMustBePositive :=
  init_identifier_error_first (-1) (-10) (by norm_num) (by norm_num)
